import Mathlib

/-!
Verification development for the `imitation_learning` repository
(`imitation_learning/dagger.py`, `imitation_learning/learners.py`).

The Python source is Python 2 code (implicit relative imports,
`__metaclass__`, old-style `super` calls); where cross-type comparison
semantics matter we follow CPython 2, and each such place is documented
on the corresponding definition.

Observations are modelled as association lists of (field name, value)
pairs, since the source iterates them with `for field, value in obs`.
Fallible Python evaluation (KeyError, ValueError, AttributeError,
unpacking failures) is modelled with `Except String`.
-/

namespace ImLearn

/-- A Python runtime value as needed by the concrete evaluations:
numbers (abstracting the numpy arrays / scalars flowing through the
algorithm) and strings (which arise when the accumulator's dictionary
iteration bug turns key characters into data). -/
inductive PyObj where
  | num : Int → PyObj
  | str : String → PyObj
  deriving DecidableEq, Repr

/-- An observation: iterable of (field, value) pairs, as consumed by
`for field, value in obs` in `rollout` (dagger.py line 39). -/
abbrev Obs (V : Type) := List (String × V)

/-- The external system capability (environment.py):
`wait_for_rollout(autonomous) -> obs` and
`step(action) -> (obs, reward, done)`, modelled as a deterministic
state machine over a state type `S`. -/
structure PySystem (S V A R : Type) where
  wait : S → Bool → Obs V × S
  step : S → A → Obs V × R × Bool × S

/-- The expert capability as accessed by dagger.py: the attribute
`expert.autonomous` (line 24) and the method `expert.action(obs)`
(line 36). -/
structure PyExpert (V A : Type) where
  expertAutonomous : Bool
  action : Obs V → A

/-- The `data` dictionary built by `rollout` (dagger.py lines 12-17):
`observations` is a `defaultdict(list)` keyed by field name, and
`targets`, `actions`, `rewards` are lists. -/
structure RolloutData (V A R : Type) where
  observations : List (String × List V)
  targets : List A
  actions : List A
  rewards : List R
  deriving DecidableEq, Repr

/-- The empty `data` dict that `rollout` starts from. -/
def emptyData {V A R : Type} : RolloutData V A R := ⟨[], [], [], []⟩

/-- Embeds the `defaultdict(list)` append `data['observations'][field].append(value)`
(dagger.py line 40); a missing key is created with an empty list. -/
def ddAppend {V : Type} (d : List (String × List V)) (f : String) (v : V) :
    List (String × List V) :=
  match d with
  | [] => [(f, [v])]
  | (g, vs) :: rest =>
      if g = f then (g, vs ++ [v]) :: rest else (g, vs) :: ddAppend rest f v

/-- The body of `if not done:` (dagger.py lines 38-43): append the
per-field observation values, the target, the action and the reward. -/
def recordStep {V A R : Type} (data : RolloutData V A R) (obs : Obs V)
    (target action : A) (reward : R) : RolloutData V A R :=
  { observations := obs.foldl (fun d fv => ddAppend d fv.1 fv.2) data.observations
    targets := data.targets ++ [target]
    actions := data.actions ++ [action]
    rewards := data.rewards ++ [reward] }

/-- The expression `np.random.random < mixing` (dagger.py lines 23 and 34).
The source omits the call parentheses, so the *function object*
`np.random.random`, not a freshly drawn sample, is compared against the
float `mixing`.  Under CPython 2's cross-type ordering, numbers compare
smaller than every non-numeric object, so a float is never greater than
a builtin function and the expression is constantly `False`; no random
sample is ever drawn.  (Under Python 3 the same expression raises
`TypeError`.) -/
def npRandomRandomLt (mixing : ℚ) : Bool :=
  let _ := mixing
  false

/-- Embeds `np.isclose(mixing, 0.0)` (dagger.py line 20) with numpy defaults
`rtol=1e-5, atol=1e-8`: true iff `|mixing - 0| <= atol + rtol*|0| = 1e-8`. -/
def npIsCloseZero (x : ℚ) : Bool :=
  decide (|x| ≤ 1 / 100000000)

/-- Embeds `use_imlearn = False if mix and np.random.random < mixing else True`
(dagger.py lines 23 and 33-34). -/
def pyUseImlearn (mix : Bool) (mixing : ℚ) : Bool :=
  if mix && npRandomRandomLt mixing then false else true

/-- Embeds `autonomous = use_imlearn or expert.autonomous` (dagger.py line 24):
Python `or` short-circuits, so the expert attribute is only touched when
`use_imlearn` is falsy; with no expert that access would be an
`AttributeError` on `None`, modelled as an error. -/
def pyAutonomous {V A : Type} (useIm : Bool) (expert : Option (PyExpert V A)) :
    Except String Bool :=
  if useIm then .ok true
  else
    match expert with
    | some e => .ok e.expertAutonomous
    | none => .error "AttributeError: NoneType has no attribute autonomous"

/-- Embeds `target = action if use_imlearn else expert.action(obs)`
(dagger.py line 36): the conditional expression only evaluates
`expert.action` when `use_imlearn` is falsy. -/
def pyTarget {V A : Type} (useIm : Bool) (action : A)
    (expert : Option (PyExpert V A)) (obs : Obs V) : Except String A :=
  if useIm then .ok action
  else
    match expert with
    | some e => .ok (e.action obs)
    | none => .error "AttributeError: NoneType has no attribute action"

/-- The inner timestep loop `for t in range(T):` of `rollout`
(dagger.py lines 31-43), carrying the current observation, system state,
`use_imlearn` flag and the accumulated data.  After a `done` step the
loop does not break: it continues with the freshly returned observation. -/
def rolloutSteps {S V A R : Type} (sys : PySystem S V A R) (policy : Obs V → A)
    (expert : Option (PyExpert V A)) (mix mixWithin : Bool) (mixing : ℚ) :
    ℕ → Obs V → S → Bool → RolloutData V A R →
    Except String (Obs V × S × Bool × RolloutData V A R)
  | 0, obs, s, useIm, data => .ok (obs, s, useIm, data)
  | t + 1, obs, s, useIm, data =>
      let useIm' := if mixWithin then pyUseImlearn mix mixing else useIm
      let action := policy obs
      match pyTarget useIm' action expert obs with
      | .error e => .error e
      | .ok target =>
          match sys.step s target with
          | (obs', reward, done, s') =>
              let data' :=
                if done then data else recordStep data obs' target action reward
              rolloutSteps sys policy expert mix mixWithin mixing t obs' s' useIm' data'

/-- The outer episode loop `for r in range(N):` of `rollout`
(dagger.py lines 21-47): per episode, decide `use_imlearn`, compute
`autonomous`, block on `system.wait_for_rollout(autonomous)`, then run
the timestep loop. -/
def rolloutEpisodes {S V A R : Type} (sys : PySystem S V A R) (policy : Obs V → A)
    (expert : Option (PyExpert V A)) (mix mixWithin : Bool) (mixing : ℚ) (T : ℕ) :
    ℕ → S → RolloutData V A R → Except String (S × RolloutData V A R)
  | 0, s, data => .ok (s, data)
  | n + 1, s, data =>
      let useIm := pyUseImlearn mix mixing
      match pyAutonomous useIm expert with
      | .error e => .error e
      | .ok au =>
          match sys.wait s au with
          | (obs, s') =>
              match rolloutSteps sys policy expert mix mixWithin mixing T obs s' useIm data with
              | .error e => .error e
              | .ok (_, s'', _, data') =>
                  rolloutEpisodes sys policy expert mix mixWithin mixing T n s'' data'

/-- Embeds `rollout(logger, system, policy, T, N, expert, mixing, mix_within_rollout)`
(dagger.py lines 9-48).  `mix = expert is not None and not
np.isclose(mixing, 0.0)` (line 20); logging is omitted. -/
def rollout {S V A R : Type} (sys : PySystem S V A R) (s0 : S) (policy : Obs V → A)
    (T N : ℕ) (expert : Option (PyExpert V A)) (mixing : ℚ) (mixWithin : Bool) :
    Except String (RolloutData V A R) :=
  let mix := expert.isSome && !npIsCloseZero mixing
  match rolloutEpisodes sys policy expert mix mixWithin mixing T N s0 emptyData with
  | .error e => .error e
  | .ok (_, data) => .ok data

/-- Embeds `np.mean(r)`: arithmetic mean (used on nonempty lists in the source). -/
def npMean (l : List ℚ) : ℚ := l.sum / l.length

/-- Embeds `np.var(r)`: population variance (numpy default `ddof=0`). -/
def npVar (l : List ℚ) : ℚ :=
  (l.map (fun x => (x - npMean l) ^ 2)).sum / l.length

/-- Embeds `test_policy_sys(logger, system, policy, T, N)` (dagger.py lines 51-59):
runs `rollout` with the default `expert=None, mixing=0.0,
mix_within_rollout=False`, then builds
`r = [np.sum(data['rewards'][roll]) for roll in range(N)]`.
`data['rewards']` is the flat list of per-timestep rewards across all
rollouts, so `data['rewards'][roll]` is a single scalar (an index past
the end raises `IndexError`) and `np.sum` of a scalar is that scalar.
The logged mean and variance are returned alongside the data. -/
def testPolicySys {S V A : Type} (sys : PySystem S V A ℚ) (s0 : S)
    (policy : Obs V → A) (T N : ℕ) :
    Except String (RolloutData V A ℚ × ℚ × ℚ) :=
  match rollout sys s0 policy T N none 0 false with
  | .error e => .error e
  | .ok data =>
      match (List.range N).mapM (fun roll => data.rewards.get? roll) with
      | none => .error "IndexError"
      | some r => .ok (data, npMean r, npVar r)

/-! ### The accumulated `data` dictionary of `dagger` and its merge step -/

/-- A value stored in the string-keyed `data` dictionary of `dagger`
(dagger.py lines 164-169): the observations entry is either a
`defaultdict(list)` (fresh run) or a plain dict restored by `np.load`
(dagger.py line 174), and the remaining entries are plain lists. -/
inductive DagVal where
  | obsDD : List (String × List PyObj) → DagVal
  | obsPlain : List (String × List PyObj) → DagVal
  | arr : List PyObj → DagVal
  deriving DecidableEq, Repr

/-- The `data` dict of `dagger`, modelled as an association list in
insertion order. -/
abbrev PyDict := List (String × DagVal)

/-- Python dict read `data[k]`: `KeyError` when the key is absent. -/
def pyDictGet (d : PyDict) (k : String) : Except String DagVal :=
  match List.lookup k d with
  | some v => .ok v
  | none => .error ("KeyError: " ++ k)

/-- Python dict write `data[k] = v`: replace in place, or append a new
key at the end. -/
def pyDictSet (d : PyDict) (k : String) (v : DagVal) : PyDict :=
  match d with
  | [] => [(k, v)]
  | (k', v') :: rest =>
      if k' = k then (k, v) :: rest else (k', v') :: pyDictSet rest k v

/-- Embeds `m[f].extend(vals)` on an inner observations mapping, creating the
key when it may be created by the caller. -/
def listExtendAt (m : List (String × List PyObj)) (f : String)
    (vals : List PyObj) : List (String × List PyObj) :=
  match m with
  | [] => [(f, vals)]
  | (g, vs) :: rest =>
      if g = f then (g, vs ++ vals) :: rest else (g, vs) :: listExtendAt rest f vals

/-- Embeds `data['observations'][field].extend(values)` (dagger.py line 212):
on a `defaultdict(list)` a missing field is created; on the plain dict
restored from disk a missing field raises `KeyError`. -/
def extendObsAt (od : DagVal) (f : String) (vals : List PyObj) :
    Except String DagVal :=
  match od with
  | .obsDD m => .ok (.obsDD (listExtendAt m f vals))
  | .obsPlain m =>
      if (List.lookup f m).isSome then .ok (.obsPlain (listExtendAt m f vals))
      else .error ("KeyError: " ++ f)
  | .arr _ => .error "TypeError"

/-- Embeds `for field, values in data_new['observations']:` (dagger.py
lines 210-212).  Iterating a Python dict yields its *keys*; each key (a
string) is then unpacked into the two loop variables, which succeeds
exactly when the key has length 2 (`ValueError` otherwise), binding
`field` to the 1-character string holding the first character and
`values` to the 1-character string holding the second.  The body then
extends `data['observations'][field]` with `values`, i.e. with the one
character, treated as a 1-element sequence of 1-character strings. -/
def mergeObsLoop : PyDict → List String → Except String PyDict
  | data, [] => .ok data
  | data, k :: rest =>
      match k.toList with
      | [c1, c2] =>
          match pyDictGet data "observations" with
          | .error e => .error e
          | .ok od =>
              match extendObsAt od (String.mk [c1]) [PyObj.str (String.mk [c2])] with
              | .error e => .error e
              | .ok od' => mergeObsLoop (pyDictSet data "observations" od') rest
      | _ => .error "ValueError: unpacking a key of length other than 2"

/-- Embeds `data[k].extend(vals)` for the list-valued entries (dagger.py
lines 213-215): `KeyError` when the key is absent. -/
def extendArrAt (data : PyDict) (k : String) (vals : List PyObj) :
    Except String PyDict :=
  match pyDictGet data k with
  | .error e => .error e
  | .ok (.arr l) => .ok (pyDictSet data k (.arr (l ++ vals)))
  | .ok _ => .error "TypeError"

/-- The merge step of the Dagger iteration loop (dagger.py lines 210-215):
the observations loop, then
`data['targets'].extend(data_new['targets'])`,
`data['actions'].extend(data_new['actions'])`,
`data['rewards'].extend(data_new['rewards'])`. -/
def daggerMerge (data : PyDict) (dataNew : RolloutData PyObj PyObj PyObj) :
    Except String PyDict :=
  match mergeObsLoop data (dataNew.observations.map (fun p => p.1)) with
  | .error e => .error e
  | .ok d1 =>
      match extendArrAt d1 "targets" dataNew.targets with
      | .error e => .error e
      | .ok d2 =>
          match extendArrAt d2 "actions" dataNew.actions with
          | .error e => .error e
          | .ok d3 => extendArrAt d3 "rewards" dataNew.rewards

/-- The accumulated `data` dict as initialised by `dagger`
(dagger.py lines 164-169).  The second key is written `'targets:'` in
the source — with a trailing colon — so the dict has no `'targets'`
key. -/
def initDaggerData : PyDict :=
  [("observations", .obsDD []),
   ("targets:", .arr []),
   ("actions", .arr []),
   ("rewards", .arr [])]

/-- The accumulated `data` dict after the `loaded_data` branch
(dagger.py lines 172-177): `data['observations']` is replaced by the
plain dict restored from disk, and `data['targets']`, `data['actions']`,
`data['rewards']` are assigned the restored lists — note that the
assignment to `data['targets']` *creates* that key, leaving the
misspelled `'targets:'` entry in place as well. -/
def loadDaggerData (obsLoaded : List (String × List PyObj))
    (t a r : List PyObj) : PyDict :=
  pyDictSet
    (pyDictSet
      (pyDictSet
        (pyDictSet initDaggerData "observations" (.obsPlain obsLoaded))
        "targets" (.arr t))
      "actions" (.arr a))
    "rewards" (.arr r)

/-! ### The mixing-probability decay of the Dagger iteration loop -/

/-- The mixing state of the Dagger loop (dagger.py lines 200 and 206):
`mixing = 1.0` before the loop and `mixing *= mixing_rate` at the top
of each iteration, so `daggerMixing rate k` is the value passed to the
rollout of the (1-indexed) iteration `k`. -/
def daggerMixing (rate : ℚ) : ℕ → ℚ
  | 0 => 1
  | k + 1 => daggerMixing rate k * rate

/-! ### The argument binding of the iteration loop's rollout call -/

/-- The configuration values in scope at the rollout call of the
Dagger iteration loop (dagger.py line 207). -/
inductive DagArg where
  | loggerA | systemA | policyA | expertA | timestepsA | rolloutsA
  | mixingA | mixGranA
  deriving DecidableEq, Repr

/-- The formal parameters of `rollout` (dagger.py lines 9-10), each
recording which value of the caller it is bound to. -/
structure RolloutCallArgs where
  logger : DagArg
  system : DagArg
  policy : DagArg
  T : DagArg
  N : DagArg
  expert : DagArg
  mixing : DagArg
  mixWithin : DagArg
  deriving DecidableEq, Repr

/-- The call `rollout(logger, system, policy, expert, T, N, mixing,
mix_within_rollout)` (dagger.py lines 207-208), bound positionally
against the signature `rollout(logger, system, policy, T, N,
expert=None, mixing=0.0, mix_within_rollout=False)` (dagger.py
lines 9-10): the fourth positional argument — the expert handle — lands
in the parameter `T`, the fifth — `T = timesteps` — lands in `N`, and
the sixth — `N = rollouts` — lands in `expert`. -/
def daggerRolloutCall : RolloutCallArgs :=
  { logger := .loggerA
    system := .systemA
    policy := .policyA
    T := .expertA
    N := .timestepsA
    expert := .rolloutsA
    mixing := .mixingA
    mixWithin := .mixGranA }

/-! ### KerasLearner.fit and KerasLearner.get_policy (learners.py) -/

/-- Embeds `inputs = [np.array(observation[field]) for field in self.fields]`
(learners.py line 161): `none` models the `KeyError` raised at the
first field absent from the observation. -/
def fieldInputs (observation : List (String × PyObj)) :
    List String → Option (List PyObj)
  | [] => some []
  | f :: fs =>
      match List.lookup f observation with
      | some v => (fieldInputs observation fs).map (fun l => v :: l)
      | none => none

/-- Embeds `inputs = [np.array(observations[field]) for field in self.fields]`
(learners.py line 139), over the dict of per-field sample lists. -/
def fitInputs (observations : List (String × List PyObj)) :
    List String → Option (List (List PyObj))
  | [] => some []
  | f :: fs =>
      match List.lookup f observations with
      | some v => (fitInputs observations fs).map (fun l => v :: l)
      | none => none

/-- The policy closure returned by `KerasLearner.get_policy`
(learners.py lines 150-166): the `except KeyError` handler only logs
(line 164); control then falls off the end of the function, so Python
returns `None` — modelled as `none` — instead of re-raising.  On
success the model's prediction is returned. -/
def kerasGetPolicy (fields : List String) (predict : List PyObj → PyObj)
    (observation : List (String × PyObj)) : Option PyObj :=
  match fieldInputs observation fields with
  | some inputs => some (predict inputs)
  | none => none

/-- Embeds `KerasLearner.fit` (learners.py lines 126-146): the `except
KeyError` handler only logs (line 141) and does not re-raise; execution
then reaches `samples = len(inputs[0])` (line 143) with the local
`inputs` never assigned, raising `UnboundLocalError` — an error that no
longer carries the missing field name.  With an empty `fields` list the
lookup succeeds with `inputs = []` and `inputs[0]` raises `IndexError`.
A successful fit is abstracted to returning the assembled inputs. -/
def kerasFit (fields : List String) (observations : List (String × List PyObj)) :
    Except String (List (List PyObj)) :=
  match fitInputs observations fields with
  | some inputs =>
      match inputs with
      | [] => .error "IndexError"
      | _ => .ok inputs
  | none => .error "UnboundLocalError: local variable referenced before assignment"

/-! ### Specification function for the amended episode-truncation claim -/

/-- Specification function (for the amended episode-truncation claim):
the number of timesteps, among the first `t` of an episode started at
observation `obs` and system state `s`, whose `system.step` returns
`done = False`.  It mirrors the dynamics `rolloutSteps` actually
executes: the action sent to the system is always the learner's, since
the mixing comparison never selects the expert (see `npRandomRandomLt`). -/
def specRecordedSteps {S V A R : Type} (sys : PySystem S V A R)
    (policy : Obs V → A) : ℕ → Obs V → S → ℕ
  | 0, _, _ => 0
  | t + 1, obs, s =>
      match sys.step s (policy obs) with
      | (obs', _, done, s') =>
          (if done then 0 else 1) + specRecordedSteps sys policy t obs' s'

/-! ### General lemmas about the rollout loops -/

/-- The mixing decision is constantly "use the learner": the source
never draws a sample (see `npRandomRandomLt`). -/
theorem pyUseImlearn_eq_true (m : Bool) (q : ℚ) : pyUseImlearn m q = true := by
  cases m <;> simp [pyUseImlearn, npRandomRandomLt]

theorem useIm_branch_true (mixWithin mix : Bool) (mixing : ℚ) :
    (if mixWithin then pyUseImlearn mix mixing else true) = true := by
  cases mixWithin <;> simp [pyUseImlearn_eq_true]

/-- Master invariant of the timestep loop, entered with
`use_imlearn = True`: it never raises, the flag stays `True`, equality
of the target and action sequences is preserved, and exactly the
timesteps whose `step` returned `done = False` contribute a record. -/
theorem stepsMaster {S V A R : Type} (sys : PySystem S V A R) (policy : Obs V → A)
    (expert : Option (PyExpert V A)) (mix mixWithin : Bool) (mixing : ℚ) :
    ∀ (t : ℕ) (obs : Obs V) (s : S) (data : RolloutData V A R),
      ∃ obs' s' data',
        rolloutSteps sys policy expert mix mixWithin mixing t obs s true data
          = .ok (obs', s', true, data') ∧
        (data.targets = data.actions → data'.targets = data'.actions) ∧
        data'.rewards.length
          = data.rewards.length + specRecordedSteps sys policy t obs s := by
  intro t
  induction t with
  | zero =>
      intro obs s data
      exact ⟨obs, s, data, rfl, fun h => h, by simp [specRecordedSteps]⟩
  | succ t ih =>
      intro obs s data
      rcases hstep : sys.step s (policy obs) with ⟨obs2, reward, done, s2⟩
      have hspec : specRecordedSteps sys policy (t + 1) obs s
          = (if done then 0 else 1) + specRecordedSteps sys policy t obs2 s2 := by
        simp [specRecordedSteps, hstep]
      cases done with
      | false =>
          obtain ⟨obs', s', data', h, himp, hlen⟩ :=
            ih obs2 s2 (recordStep data obs2 (policy obs) (policy obs) reward)
          refine ⟨obs', s', data', ?_, ?_, ?_⟩
          · simp only [rolloutSteps, useIm_branch_true, pyTarget, if_true, hstep]
            exact h
          · intro hd
            exact himp (by simp [recordStep, hd])
          · rw [hlen, hspec]
            simp [recordStep]
            omega
      | true =>
          obtain ⟨obs', s', data', h, himp, hlen⟩ := ih obs2 s2 data
          refine ⟨obs', s', data', ?_, himp, ?_⟩
          · simp only [rolloutSteps, useIm_branch_true, pyTarget, if_true, hstep]
            exact h
          · simp at hspec
            rw [hlen, hspec]

/-- Master invariant of the episode loop: it never raises and preserves
equality of the target and action sequences. -/
theorem episodesMaster {S V A R : Type} (sys : PySystem S V A R) (policy : Obs V → A)
    (expert : Option (PyExpert V A)) (mix mixWithin : Bool) (mixing : ℚ) (T : ℕ) :
    ∀ (n : ℕ) (s : S) (data : RolloutData V A R),
      ∃ s' data',
        rolloutEpisodes sys policy expert mix mixWithin mixing T n s data
          = .ok (s', data') ∧
        (data.targets = data.actions → data'.targets = data'.actions) := by
  intro n
  induction n with
  | zero => intro s data; exact ⟨s, data, rfl, fun h => h⟩
  | succ n ih =>
      intro s data
      have hau : pyAutonomous (V := V) (A := A) true expert = .ok true := rfl
      rcases hwait : sys.wait s true with ⟨obs, s1⟩
      obtain ⟨obs', s2, data', hsteps, himp, _⟩ :=
        stepsMaster sys policy expert mix mixWithin mixing T obs s1 data
      obtain ⟨s3, data'', hrest, himp'⟩ := ih s2 data'
      refine ⟨s3, data'', ?_, fun h => himp' (himp h)⟩
      simp only [rolloutEpisodes, pyUseImlearn_eq_true, hau, hwait, hsteps, hrest]

/-- The timestep loop consults the system only through `step`. -/
theorem stepsCongr {S V A R : Type} (sys sys' : PySystem S V A R)
    (policy : Obs V → A) (expert : Option (PyExpert V A))
    (mix mixWithin : Bool) (mixing : ℚ)
    (hstep : ∀ s a, sys.step s a = sys'.step s a) :
    ∀ (t : ℕ) (obs : Obs V) (s : S) (useIm : Bool) (data : RolloutData V A R),
      rolloutSteps sys policy expert mix mixWithin mixing t obs s useIm data
        = rolloutSteps sys' policy expert mix mixWithin mixing t obs s useIm data := by
  have hstep' : sys.step = sys'.step := funext fun s => funext fun a => hstep s a
  intro t
  induction t with
  | zero => intro obs s useIm data; rfl
  | succ t ih =>
      intro obs s useIm data
      simp only [rolloutSteps, hstep']
      cases pyTarget (if mixWithin then pyUseImlearn mix mixing else useIm)
          (policy obs) expert obs with
      | error e => rfl
      | ok target =>
          rcases hp : sys'.step s target with ⟨obs2, reward, done, s2⟩
          simp only [hp]
          exact ih obs2 s2 _ _

/-- With no expert, the episode loop consults the system only through
`step` and through `wait` *at `autonomous = True`*. -/
theorem episodesCongrNone {S V A R : Type} (sys sys' : PySystem S V A R)
    (policy : Obs V → A) (mix mixWithin : Bool) (mixing : ℚ) (T : ℕ)
    (hwait : ∀ s, sys.wait s true = sys'.wait s true)
    (hstep : ∀ s a, sys.step s a = sys'.step s a) :
    ∀ (n : ℕ) (s : S) (data : RolloutData V A R),
      rolloutEpisodes sys policy none mix mixWithin mixing T n s data
        = rolloutEpisodes sys' policy none mix mixWithin mixing T n s data := by
  intro n
  induction n with
  | zero => intro s data; rfl
  | succ n ih =>
      intro s data
      have hau : pyAutonomous (V := V) (A := A) true
          (none : Option (PyExpert V A)) = .ok true := rfl
      simp only [rolloutEpisodes, pyUseImlearn_eq_true, hau, hwait s,
        stepsCongr sys sys' policy none mix mixWithin mixing hstep]
      rcases hres : rolloutSteps sys' policy none mix mixWithin mixing T
          (sys'.wait s true).1 (sys'.wait s true).2 true data with e | p
      · simp only [hres]
      · rcases p with ⟨o, s2, b, d⟩
        simp only [hres]
        exact ih s2 d

/-! ### Concrete fixtures for the evaluations -/

/-- A learner policy that always outputs the action `0`. -/
def learnerPolicyZero : Obs PyObj → PyObj := fun _ => .num 0

/-- A system for the mixing evaluation: never done, constant
observation field `"f"`, zero reward. -/
def sysMix : PySystem ℕ PyObj PyObj PyObj :=
  { wait := fun s _ => ([("f", .num 5)], s)
    step := fun s _ => ([("f", .num 5)], .num 0, false, s + 1) }

/-- An expert whose action is always `1`, distinct from the learner's. -/
def expertOne : PyExpert PyObj PyObj :=
  { expertAutonomous := false, action := fun _ => .num 1 }

/-- A system that is done exactly at its first step and not afterwards:
`step` at state `s` returns `done = (s == 0)`, observation
`("f", s + 1)` and reward `s`. -/
def sysDone0 : PySystem ℕ PyObj PyObj PyObj :=
  { wait := fun s _ => ([("f", .num 0)], s)
    step := fun s _ => ([("f", .num ((s : Int) + 1))], .num (s : Int), s == 0, s + 1) }

/-- A never-done system whose single observation field is the
2-character name `"ab"`, with constant reward `7`. -/
def sysAB : PySystem ℕ PyObj PyObj PyObj :=
  { wait := fun s _ => ([("ab", .num 0)], s)
    step := fun s _ => ([("ab", .num (s : Int)), ], .num 7, false, s + 1) }

/-- A never-done system with rational rewards `2` at its first step and
`4` afterwards. -/
def sysRew : PySystem ℕ PyObj PyObj ℚ :=
  { wait := fun s _ => ([("f", .num 0)], s)
    step := fun s _ => ([("f", .num 0)], if s = 0 then (2 : ℚ) else 4, false, s + 1) }

/-- A batch as produced by `rollout` on `sysAB` with `T = 3, N = 1`:
three records of field `"ab"`, learner targets and actions `0`,
rewards `7`. -/
def batchAB : RolloutData PyObj PyObj PyObj :=
  { observations := [("ab", [.num 0, .num 1, .num 2])]
    targets := [.num 0, .num 0, .num 0]
    actions := [.num 0, .num 0, .num 0]
    rewards := [.num 7, .num 7, .num 7] }

/-- A batch with a single record of the 2-character field `"ab"`, used
to exercise the fresh-data merge. -/
def batchOne : RolloutData PyObj PyObj PyObj :=
  { observations := [("ab", [.num 1])]
    targets := [.num 2]
    actions := [.num 2]
    rewards := [.num 3] }

/-- An accumulated dataset restored from disk: field `"a"` with two
samples, and two targets, actions and rewards each — fully aligned. -/
def loadedAligned : PyDict :=
  loadDaggerData [("a", [.num 10, .num 20])]
    [.num 5, .num 5] [.num 5, .num 5] [.num 5, .num 5]

/-- A pair of systems for the no-expert safety witness: they agree on
`step` and on `wait` at `autonomous = True`, and differ on `wait` at
`autonomous = False`. -/
def sysWitA : PySystem ℕ PyObj PyObj PyObj :=
  { wait := fun s _ => ([("f", .num 1)], s)
    step := fun s _ => ([("f", .num 1)], .num 0, false, s + 1) }

/-- See `sysWitA`: same `step`, same `wait` at `True`, different `wait`
at `False`. -/
def sysWitB : PySystem ℕ PyObj PyObj PyObj :=
  { wait := fun s b => (if b then [("f", .num 1)] else [("f", .num 99)], s)
    step := fun s _ => ([("f", .num 1)], .num 0, false, s + 1) }

/-- A mixing probability of 1.0 is not close to zero, so mixing is
active (`mix` is true) in `rollout`. -/
theorem npIsCloseZero_one : npIsCloseZero 1 = false := by
  norm_num [npIsCloseZero]

/-! ### Claim theorems -/

/-- C1.  The claim states that each mixing decision draws one fresh
uniform sample and picks the expert exactly when the sample is below
the mixing probability, so that with probability 1.0 and per-timestep
mixing every recorded target is the expert's action.  The code
(dagger.py lines 23 and 33-34) compares the uncalled function object
`np.random.random` against the probability, which draws no sample and
is constantly false under CPython 2's cross-type ordering, so with
mixing probability 1.0 (not close to 0, hence mixing is active) and
`mix_within_rollout = True` every recorded target is still the
*learner's* action `0`, never the expert's action `1`. -/
theorem rollout_full_mixing_still_records_learner_targets :
    rollout sysMix 0 learnerPolicyZero 2 1 (some expertOne) 1 true
      = .ok { observations := [("f", [.num 5, .num 5])]
              targets := [.num 0, .num 0]
              actions := [.num 0, .num 0]
              rewards := [.num 0, .num 0] } ∧
    expertOne.action [("f", .num 5)] = .num 1 ∧
    npIsCloseZero 1 = false ∧
    PyObj.num 0 ≠ PyObj.num 1 := by
  refine ⟨?_, rfl, npIsCloseZero_one, by decide⟩
  simp only [rollout, npIsCloseZero_one]
  rfl

/-- C2 (counterexample).  On `sysDone0`, `system.step` returns
`done = True` at timestep 0 of a 2-timestep episode (so t = 0 < T - 1),
yet the returned dataset is not empty: the loop does not break on done,
and timestep 1 — whose own step returns `done = False` — is recorded. -/
theorem rollout_records_step_after_done :
    (sysDone0.step 0 (.num 0)).2.2.1 = true ∧
    rollout sysDone0 0 learnerPolicyZero 2 1 none 0 false
      = .ok { observations := [("f", [.num 2])]
              targets := [.num 0]
              actions := [.num 0]
              rewards := [.num 1] } ∧
    ([PyObj.num 1] : List PyObj) ≠ [] := by
  refine ⟨rfl, rfl, by decide⟩

/-- C2 (amended).  `rollout` does not end an episode at a done step: it
skips only the record of every timestep whose `step` returned
`done = True`, and keeps stepping.  The number of records appended by
an episode's timestep loop equals the number of its timesteps whose
`step` returned `done = False` (`specRecordedSteps`); in particular the
done timestep itself is never recorded, but later non-done timesteps
are. -/
theorem rollout_appends_exactly_non_done_steps {S V A R : Type}
    (sys : PySystem S V A R) (policy : Obs V → A)
    (expert : Option (PyExpert V A)) (mix mixWithin : Bool) (mixing : ℚ)
    (T : ℕ) (obs : Obs V) (s : S) (data : RolloutData V A R) :
    ∃ obs' s' data',
      rolloutSteps sys policy expert mix mixWithin mixing T obs s true data
        = .ok (obs', s', true, data') ∧
      data'.rewards.length
        = data.rewards.length + specRecordedSteps sys policy T obs s := by
  obtain ⟨obs', s', data', h, _, hlen⟩ :=
    stepsMaster sys policy expert mix mixWithin mixing T obs s data
  exact ⟨obs', s', data', h, hlen⟩

/-- C3.  The claim states that the orchestrator's merge step appends
the batch's observation fields, targets, actions and rewards to the
accumulated dataset.  The accumulated dict is initialised with the
misspelled key `'targets:'` (dagger.py line 166), so on a fresh run
`data['targets'].extend(...)` (line 213) raises `KeyError: targets`
and the merge never completes; moreover the observation loop iterates
dict *keys* (line 210 lacks `.items()`), so before failing it has
already extended field `"a"` with the 1-character string `"b"` instead
of appending the `"ab"` field's sequence. -/
theorem dagger_merge_fresh_data_keyerror :
    daggerMerge initDaggerData batchOne = .error "KeyError: targets" ∧
    mergeObsLoop initDaggerData (batchOne.observations.map (fun p => p.1))
      = .ok [("observations", .obsDD [("a", [.str "b"])]),
             ("targets:", .arr []),
             ("actions", .arr []),
             ("rewards", .arr [])] := by
  refine ⟨rfl, rfl⟩

/-- C4.  The claim states the evaluation harness reports the mean and
population variance of the N per-episode total rewards.  The code
(dagger.py line 55) indexes the *flat* per-timestep reward list with
the rollout index: for one episode of two timesteps with rewards 2 and
4 (total 6), `r = [np.sum(data['rewards'][0])] = [2]`, so the logged
mean is 2 and variance 0, not the episode total 6. -/
theorem test_policy_sys_uses_flat_reward_list :
    testPolicySys sysRew 0 learnerPolicyZero 2 1
      = .ok ({ observations := [("f", [.num 0, .num 0])]
               targets := [.num 0, .num 0]
               actions := [.num 0, .num 0]
               rewards := [2, 4] }, 2, 0) ∧
    ([(2 : ℚ), 4].sum = 6) ∧
    (2 : ℚ) ≠ 6 := by
  refine ⟨?_, by norm_num, by norm_num⟩
  have hroll : rollout sysRew 0 learnerPolicyZero 2 1 none 0 false
      = .ok { observations := [("f", [.num 0, .num 0])]
              targets := [.num 0, .num 0]
              actions := [.num 0, .num 0]
              rewards := [2, 4] } := rfl
  have hmap : (List.range 1).mapM (fun roll => ([2, 4] : List ℚ).get? roll)
      = some [2] := rfl
  simp only [testPolicySys, hroll, hmap]
  norm_num [npMean, npVar]

/-- C5.  The claim states that the Dagger iteration loop passes each
configuration value to its corresponding `rollout` parameter.  The call
at dagger.py line 207 lists the arguments in the order
`(logger, system, policy, expert, T, N, mixing, mix_within_rollout)`
against the signature `(logger, system, policy, T, N, expert, mixing,
mix_within_rollout)`, so the parameter `T` receives the expert handle,
`N` receives the timestep count and `expert` receives the rollout
count. -/
theorem dagger_rollout_call_misbinds_arguments :
    daggerRolloutCall.T = DagArg.expertA ∧
    daggerRolloutCall.N = DagArg.timestepsA ∧
    daggerRolloutCall.expert = DagArg.rolloutsA ∧
    daggerRolloutCall.T ≠ DagArg.timestepsA ∧
    daggerRolloutCall.N ≠ DagArg.rolloutsA ∧
    daggerRolloutCall.expert ≠ DagArg.expertA := by
  refine ⟨rfl, rfl, rfl, by decide, by decide, by decide⟩

/-- C6.  The claim states that datasets produced by the rollout engine
or by the accumulator's merge keep all sequences equal in length.  The
merge (dagger.py lines 210-215) iterates the batch's observation dict
without `.items()`: merging a loaded, fully aligned dataset with an
aligned 3-record batch of the single field `"ab"` (itself produced by
`rollout`) yields a dataset whose only observation field `"a"` has 3
entries while `targets` has 5 — the alignment invariant is broken. -/
theorem dagger_merge_breaks_alignment :
    rollout sysAB 0 learnerPolicyZero 3 1 none 0 false = .ok batchAB ∧
    daggerMerge loadedAligned batchAB
      = .ok [("observations", .obsPlain [("a", [.num 10, .num 20, .str "b"])]),
             ("targets:", .arr []),
             ("actions", .arr [.num 5, .num 5, .num 0, .num 0, .num 0]),
             ("rewards", .arr [.num 5, .num 5, .num 7, .num 7, .num 7]),
             ("targets", .arr [.num 5, .num 5, .num 0, .num 0, .num 0])] ∧
    ([PyObj.num 10, .num 20, .str "b"].length
      ≠ [PyObj.num 5, .num 5, .num 0, .num 0, .num 0].length) := by
  refine ⟨rfl, rfl, by decide⟩

/-- C7.  With `expert = None`, `mix` is false, the per-decision flag
`use_imlearn` is always true, and the recorded target sequence is the
recorded learner-action sequence, for every system, policy, horizon,
episode count, mixing probability and granularity. -/
theorem rollout_no_expert_targets_eq_actions {S V A R : Type}
    (sys : PySystem S V A R) (s0 : S) (policy : Obs V → A)
    (T N : ℕ) (mixing : ℚ) (mw : Bool) :
    ∃ d, rollout sys s0 policy T N none mixing mw = .ok d ∧
      d.targets = d.actions := by
  obtain ⟨s', d, h, himp⟩ :=
    episodesMaster sys policy none
      ((none : Option (PyExpert V A)).isSome && !npIsCloseZero mixing)
      mw mixing T N s0 emptyData
  refine ⟨d, ?_, himp rfl⟩
  simp only [rollout, h]

/-- C8.  The Dagger loop's mixing probability starts at 1.0 and is
multiplied by the decay rate once per iteration before the rollout, so
the value used in (1-indexed) iteration `k` is `rate ^ k`, strictly
decreasing in `k` for a rate in (0, 1). -/
theorem dagger_mixing_pow_strict_decrease (r : ℚ) (k : ℕ)
    (h0 : 0 < r) (h1 : r < 1) :
    daggerMixing r k = r ^ k ∧ daggerMixing r (k + 1) < daggerMixing r k := by
  have hpow : ∀ n, daggerMixing r n = r ^ n := by
    intro n
    induction n with
    | zero => rfl
    | succ n ih => simp [daggerMixing, ih, pow_succ]
  refine ⟨hpow k, ?_⟩
  rw [hpow, hpow, pow_succ]
  calc r ^ k * r < r ^ k * 1 := mul_lt_mul_of_pos_left h1 (pow_pos h0 k)
    _ = r ^ k := mul_one _

/-- Witness for C8 at rate 1/2, iteration 2. -/
theorem dagger_mixing_pow_strict_decrease_witness :
    daggerMixing (1 / 2) 2 = (1 / 2 : ℚ) ^ 2 ∧
    daggerMixing (1 / 2) 3 < daggerMixing (1 / 2) 2 :=
  dagger_mixing_pow_strict_decrease (1 / 2) 2 (by norm_num) (by norm_num)

/-- C9.  The claim states that a fit or policy-prediction call on data
missing a required observation field reports the failure and re-raises
it, never returning a falsy value after only logging.  The policy
closure (learners.py lines 159-164) catches the `KeyError`, logs it,
and falls off the end of the function, returning `None`; `fit`
(lines 137-143) catches and logs it, then raises an unrelated
`UnboundLocalError` at `len(inputs[0])`.  Neither re-raises the lookup
failure. -/
theorem keras_missing_field_suppressed_not_reraised :
    kerasGetPolicy ["x"] (fun _ => PyObj.num 0) [] = none ∧
    kerasFit ["x"] []
      = .error "UnboundLocalError: local variable referenced before assignment" := by
  refine ⟨rfl, rfl⟩

/-- C10.  With `expert = None`, a rollout never dereferences the absent
expert (it completes with `.ok`, while the embedding faults exactly at
the two expert accesses, dagger.py lines 24 and 36), and the system's
`wait_for_rollout` is only ever consulted with `autonomous = True`: two
systems agreeing on `step` and on `wait` at `True` — but possibly
differing at `False` — produce the same dataset. -/
theorem rollout_no_expert_no_null_deref {S V A R : Type}
    (sys sys' : PySystem S V A R) (s0 : S) (policy : Obs V → A)
    (T N : ℕ) (mixing : ℚ) (mw : Bool)
    (hwait : ∀ s, sys.wait s true = sys'.wait s true)
    (hstep : ∀ s a, sys.step s a = sys'.step s a) :
    ∃ d, rollout sys s0 policy T N none mixing mw = .ok d ∧
      rollout sys' s0 policy T N none mixing mw = .ok d := by
  obtain ⟨s', d, h, _⟩ :=
    episodesMaster sys policy none
      ((none : Option (PyExpert V A)).isSome && !npIsCloseZero mixing)
      mw mixing T N s0 emptyData
  have hcongr := episodesCongrNone sys sys' policy
    ((none : Option (PyExpert V A)).isSome && !npIsCloseZero mixing)
    mw mixing T hwait hstep N s0 emptyData
  refine ⟨d, ?_, ?_⟩
  · simp only [rollout, h]
  · simp only [rollout, ← hcongr, h]

/-- Witness for C10 on `sysWitA`/`sysWitB`, which differ in `wait` at
`autonomous = False` only. -/
theorem rollout_no_expert_no_null_deref_witness :
    rollout sysWitA 0 learnerPolicyZero 1 1 none 0 false
      = rollout sysWitB 0 learnerPolicyZero 1 1 none 0 false := by
  obtain ⟨d, h1, h2⟩ :=
    rollout_no_expert_no_null_deref sysWitA sysWitB 0 learnerPolicyZero 1 1 0 false
      (fun s => rfl) (fun s a => rfl)
  rw [h1, h2]

end ImLearn
